import Mathlib

/-!
# Quixand: a shallow embedding of the sandbox SDK, with proofs

This file embeds the parts of the Quixand SDK (a host-side manager of
ephemeral container sandboxes) that its specification makes claims about:

* the configuration module (`quicksand/config.py`),
* the State Store read/write discipline (`quixand/adapters/local_docker.py`
  and `quixand/core/watchdog.py`),
* the per-sandbox watchdog loop (`quixand/core/watchdog.py`),
* the adapter's sandbox operations (`quixand/adapters/local_docker.py`),
* the sandbox facade's `shutdown` (`quixand/core/sandbox.py`),
* the container runtimes' stop/remove/start/inspect error discipline
  (`quixand/container/docker_runtime.py`, `podman_runtime.py`) and the
  exec timeout path,
* the in-container HTTP proxy dispatch (`quixand/core/proxy.py`),
* the Playground pool (`quixand/core/playground.py`).

Machine-level effects (the container engine, the disk, wall clocks) are
modelled as explicit inputs: a backend call is an oracle value describing
how the engine answered, a clock reading is a `Nat` of seconds, and a
write to the State Store file is recorded as an explicit event so that the
write discipline (temp-file-then-rename versus direct write) is visible.
Every definition is translated from the corresponding Python source,
statement by statement; doc comments name the source location.
-/

namespace Quixand

/-! ## Environment and configuration (`quicksand/config.py`)

The process environment is a partial map from variable names to values.
Paths are plain strings joined with `/`, as in the Python source.
-/

/-- A process environment: `env.lookup "HOME"` models `os.getenv("HOME")`. -/
def Env : Type := String → Option String

/-- `os.getenv(name, default)` with a default. -/
def Env.getD (env : Env) (name default : String) : String :=
  (env name).getD default

/-- Override one variable of an environment (used to state how behaviour
changes when `QS_ROOT` is set). -/
def Env.set (env : Env) (name : String) (value : String) : Env :=
  fun n => if n = name then some value else env n

/-- `config.py` line 14: `STATE_DIR = Path(os.getenv("HOME", "~")).expanduser() / ".quicksand"`.
A module-level constant computed from `HOME` only. -/
def STATE_DIR (env : Env) : String :=
  env.getD "HOME" "~" ++ "/.quicksand"

/-- `config.py` line 16: `STATE_FILE = STATE_DIR / "state.json"`. -/
def STATE_FILE (env : Env) : String :=
  STATE_DIR env ++ "/state.json"

/-- `config.py` line 17: `TEMPLATES_DIR = STATE_DIR / "templates"`. -/
def TEMPLATES_DIR (env : Env) : String :=
  STATE_DIR env ++ "/templates"

/-- `config.py` line 33: the `root` field of `Config`:
`root: Path = Field(default=Path(os.getenv("QS_ROOT", str(STATE_DIR))))`. -/
def Config.root (env : Env) : String :=
  env.getD "QS_ROOT" (STATE_DIR env)

/-- `config.py` lines 41-43: `Config.state_file()` is a staticmethod that
returns the module constant `STATE_FILE`. -/
def Config.state_file (env : Env) : String :=
  STATE_FILE env

/-- `config.py` lines 45-47: `Config.templates_dir()` returns `TEMPLATES_DIR`. -/
def Config.templates_dir (env : Env) : String :=
  TEMPLATES_DIR env

/-- `local_docker.py` lines 379-382 (`LocalDockerAdapter._scratch`):
the scratch directory is `Config.state_file().parent / "scratch" / h.id`. -/
def scratch_dir (env : Env) (sbxId : String) : String :=
  STATE_DIR env ++ "/scratch/" ++ sbxId

/-- `local_docker.py` lines 384-387 (`LocalDockerAdapter._ensure_volume_dir`):
the volume directory is `Config.state_file().parent / "volumes" / sbx_id`. -/
def volume_dir (env : Env) (sbxId : String) : String :=
  STATE_DIR env ++ "/volumes/" ++ sbxId

/-! ## State Store (`quixand/adapters/local_docker.py`, `quixand/core/watchdog.py`)

The State Store is one JSON document mapping sandbox ids to handle records.
We model the parsed document as an association list keyed by sandbox id,
with Python-dict semantics for insertion and removal, and we model the
on-disk file as either missing, holding unparsable bytes, or holding a
valid document — exactly the three cases the readers distinguish.
-/

/-- One persisted record of the State Store, the dict written by
`LocalDockerAdapter._persist_handle` (`local_docker.py` lines 405-417).
Instants are UTC seconds. -/
structure StoreEntry where
  container_id : String
  runtime : String
  workdir : String
  created_at : Option Nat
  last_active_at : Option Nat
  timeout_seconds : Option Nat
  adapter : String
  deriving Repr, DecidableEq

/-- The parsed State Store document: sandbox id → record. -/
abbrev StateStore : Type := List (String × StoreEntry)

/-- Python-dict lookup `state.get(sbx_id)`. -/
def StateStore.get (s : StateStore) (id : String) : Option StoreEntry :=
  match s.find? (fun kv => kv.1 = id) with
  | some kv => some kv.2
  | none => none

/-- Python-dict update `state[id] = entry` (replace in place, else append). -/
def StateStore.set (s : StateStore) (id : String) (e : StoreEntry) : StateStore :=
  if (s.find? (fun kv => kv.1 = id)).isSome then
    s.map (fun kv => if kv.1 = id then (id, e) else kv)
  else
    s ++ [(id, e)]

/-- Python-dict removal `state.pop(id, None)`. -/
def StateStore.pop (s : StateStore) (id : String) : StateStore :=
  s.filter (fun kv => kv.1 ≠ id)

/-- The on-disk State Store file as a reader finds it. -/
inductive StateFileContent where
  /-- The file does not exist. -/
  | missing
  /-- The file exists but `json.loads` raises on its content. -/
  | corrupt
  /-- The file exists and parses to the document `s`. -/
  | valid (s : StateStore)
  deriving DecidableEq

/-- One write of the State Store file, recorded with its mechanism. -/
inductive StoreWrite where
  /-- `atomic_write_text`: write a temp file, then rename it over the target. -/
  | atomicTempRename (s : StateStore)
  /-- `Path.write_text`: overwrite the target file in place. -/
  | direct (s : StateStore)
  deriving DecidableEq

/-- Whether a recorded write used the write-temp-then-rename mechanism. -/
def StoreWrite.isAtomic : StoreWrite → Bool
  | .atomicTempRename _ => true
  | .direct _ => false

/-- Modelled from the spec: `quixand.utils.fs.atomic_write_text` is imported
by `local_docker.py` line 19 but `quixand/utils/fs.py` is not in the source
tree; the spec (§4.3 Atomicity) says "Writes go through write-temp-then-rename".
The model records the written document tagged with that mechanism. -/
def atomic_write_text (s : StateStore) : StoreWrite :=
  .atomicTempRename s

/-- `Path.write_text` as used by the watchdog (`watchdog.py` lines 102, 116):
a direct in-place overwrite of the state file. -/
def path_write_text (s : StateStore) : StoreWrite :=
  .direct s

/-- `LocalDockerAdapter._load_state` (`local_docker.py` lines 397-403):
return `{}` when the file is missing, `{}` when `json.loads` raises,
else the parsed document. -/
def adapter_load_state : StateFileContent → StateStore
  | .missing => []
  | .corrupt => []
  | .valid s => s

/-- `_load_state` of the watchdog (`watchdog.py` lines 14-18): one `try` around
read-and-parse; a missing file raises in `read_text` and corrupt content raises
in `json.loads`, both caught, returning `{}`. -/
def watchdog_load_state : StateFileContent → StateStore
  | .missing => []
  | .corrupt => []
  | .valid s => s

/-! ## Watchdog (`quixand/core/watchdog.py`)

`main` polls the State Store once per second. We embed one iteration of
the loop body (lines 50-129) as a function of: the state file content, the
sandbox id, the clock reading `now` (UTC seconds), whether `get_runtime`
returned a runtime, and whether the container still exists. The iteration's
observable effects are returned as a record.
-/

/-- The observable effects of one watchdog loop iteration. -/
structure TickResult where
  /-- `some code` when the iteration returns from `main`; `none` when it
  sleeps one second and loops. -/
  exitCode : Option Nat
  /-- `true` when the iteration issued `stop_container` + `remove_container`
  on the sandbox's container. -/
  stopRemove : Bool
  /-- `true` when the iteration deleted the scratch and volume directories. -/
  cleanedDirs : Bool
  /-- `true` when the iteration popped the sandbox's entry from the store. -/
  removedEntry : Bool
  /-- State Store file writes issued by the iteration, in order. -/
  stateWrites : List StoreWrite
  deriving DecidableEq

/-- One iteration of `main`'s loop (`watchdog.py` lines 50-129).
`runtimeAvailable` is whether `get_runtime` (lines 21-41) returned a runtime
rather than `None`; `containerExists` is the answer of
`runtime.container_exists` (line 113). Parse failures of the stored
timestamps are the `none` cases of the entry's fields: `created_at` falls
back to `now` (line 59) and `last_active_at` to `created_at` (line 66);
a missing `timeout_seconds` falls back to 300 (line 68). -/
def watchdog_tick (file : StateFileContent) (sbxId : String) (now : Nat)
    (runtimeAvailable containerExists : Bool) : TickResult :=
  let state := watchdog_load_state file
  match state.get sbxId with
  | none =>
    -- line 53-54: entry absent means the sandbox is gone; exit 0
    ⟨some 0, false, false, false, []⟩
  | some e =>
    let created_at := e.created_at.getD now
    let last_active_at := e.last_active_at.getD created_at
    let timeout_seconds := e.timeout_seconds.getD 300
    let deadline := last_active_at + timeout_seconds
    let lifetime_deadline := created_at + max (timeout_seconds * 2) (timeout_seconds + 60)
    if deadline ≤ now ∨ lifetime_deadline ≤ now then
      -- lines 77-105: reap. stop+remove only if container_id is truthy and a
      -- runtime was obtained (lines 81-89); dirs and state entry regardless.
      ⟨some 0, (e.container_id != "") && runtimeAvailable, true, true,
        [path_write_text (state.pop sbxId)]⟩
    else if (e.container_id != "") && runtimeAvailable && !containerExists then
      -- lines 107-127: container already gone; remove entry, clean dirs, exit 0
      ⟨some 0, false, true, true, [path_write_text (state.pop sbxId)]⟩
    else
      -- line 129: sleep 1s and loop
      ⟨none, false, false, false, []⟩

/-! ## Adapter handles and filesystem/process operations
(`quixand/adapters/local_docker.py`)

`LocalHandle` is the in-memory handle (lines 33-42). Each operation below
is the corresponding adapter method, with the container-engine call treated
as succeeding (each claim about these operations conditions on the
operation completing successfully); what the embedding keeps is everything
the claims are about: the handle mutation and the State Store writes. -/

/-- `LocalHandle` (`local_docker.py` lines 33-42); instants are UTC seconds. -/
structure Handle where
  container_id : String
  id : String
  runtime_name : String
  workdir : String
  created_at : Nat
  last_active_at : Nat
  timeout_seconds : Nat
  deriving DecidableEq

/-- The record `_persist_handle` stores for a handle (lines 407-416). -/
def Handle.toEntry (h : Handle) : StoreEntry :=
  ⟨h.container_id, h.runtime_name, h.workdir, some h.created_at,
    some h.last_active_at, some h.timeout_seconds, "local-docker"⟩

/-- `LocalDockerAdapter._persist_handle` (lines 405-417): reload the store
from disk, set this handle's entry, write the result atomically. Returns the
document written and the recorded write. -/
def persist_handle (file : StateFileContent) (h : Handle) : StateStore × StoreWrite :=
  let state := adapter_load_state file
  let state' := state.set h.id h.toEntry
  (state', atomic_write_text state')

/-- `LocalDockerAdapter._remove_state` (lines 419-422). -/
def remove_state (file : StateFileContent) (sandbox_id : String) :
    StateStore × StoreWrite :=
  let state := adapter_load_state file
  let state' := state.pop sandbox_id
  (state', atomic_write_text state')

/-- The effects of one adapter operation on the handle and the store file. -/
structure OpEffect where
  handle : Handle
  stateWrites : List StoreWrite
  deriving DecidableEq

/-- The common tail of the mutating operations: set
`h.last_active_at = datetime.utcnow()` and `self._persist_handle(h)`. -/
def touch_and_persist (file : StateFileContent) (h : Handle) (now : Nat) : OpEffect :=
  let h' := { h with last_active_at := now }
  ⟨h', [(persist_handle file h').2]⟩

/-- `fs_write` (lines 225-231): stage the bytes, `copy_to_container`, then
update `last_active_at` and persist. -/
def fs_write (file : StateFileContent) (h : Handle) (now : Nat) : OpEffect :=
  touch_and_persist file h now

/-- `fs_read` (lines 233-240): `copy_from_container`, read the staged bytes,
then update `last_active_at` and persist. -/
def fs_read (file : StateFileContent) (h : Handle) (now : Nat) : OpEffect :=
  touch_and_persist file h now

/-- `fs_mkdir` (lines 268-276): exec `mkdir`, then update and persist. -/
def fs_mkdir (file : StateFileContent) (h : Handle) (now : Nat) : OpEffect :=
  touch_and_persist file h now

/-- `fs_rm` (lines 278-286): exec `rm`, then update and persist. -/
def fs_rm (file : StateFileContent) (h : Handle) (now : Nat) : OpEffect :=
  touch_and_persist file h now

/-- `fs_mv` (lines 288-295): exec `mv`, then update and persist. -/
def fs_mv (file : StateFileContent) (h : Handle) (now : Nat) : OpEffect :=
  touch_and_persist file h now

/-- `fs_put` (lines 297-301): `copy_to_container`, then update and persist. -/
def fs_put (file : StateFileContent) (h : Handle) (now : Nat) : OpEffect :=
  touch_and_persist file h now

/-- `fs_get` (lines 303-307): `copy_from_container`, then update and persist. -/
def fs_get (file : StateFileContent) (h : Handle) (now : Nat) : OpEffect :=
  touch_and_persist file h now

/-- `refresh_timeout` (lines 219-222): set `timeout_seconds`, set
`last_active_at = now`, persist. -/
def refresh_timeout (file : StateFileContent) (h : Handle) (seconds now : Nat) :
    OpEffect :=
  let h1 := { h with timeout_seconds := seconds }
  touch_and_persist file h1 now

/-- `FileInfo` as produced by `fs_ls` (`quixand/types.py`): a path, a size in
bytes, a directory bit, and an optional modification instant (Unix seconds). -/
structure FileInfo where
  path : String
  size : Nat
  is_dir : Bool
  modified_at : Option Int
  deriving DecidableEq, Repr

/-- Python `str.split()` with no argument: split on runs of whitespace,
dropping empty fields. -/
def pySplit (s : String) : List String :=
  (s.split Char.isWhitespace).filter (fun t => t ≠ "")

/-- The per-line parse of `fs_ls` (`local_docker.py` lines 253-265): a line
with fewer than 7 whitespace-separated fields is skipped; otherwise size is
field 4 parsed as digits (0 when not all digits), the modification time is
field 5 parsed as an integer (`none` when unparsable), the path is the last
field, and the directory bit is whether the line starts with `d`. -/
def lsParseLine (line : String) : Option FileInfo :=
  let parts := pySplit line
  if parts.length < 7 then none
  else
    let size := ((parts.getD 4 "").toNat?).getD 0
    let mtime := (parts.getD 5 "").toInt?
    let name := (parts.getLast?).getD ""
    some ⟨name, size, line.startsWith "d", mtime⟩

/-- The whole-output parse of `fs_ls`: drop the first line (`ls -la` header),
parse the rest. `splitlines()[1:]` is modelled by splitting on newline and
dropping the head; a trailing empty line has 0 fields and is skipped. -/
def lsParse (out : String) : List FileInfo :=
  ((out.splitOn "\n").drop 1).filterMap lsParseLine

/-- `fs_ls` (`local_docker.py` lines 242-266): exec
`ls -la --time-style=+%s <path>` and parse its stdout. `lsOutput` is that
stdout. Unlike every other operation of the adapter, the method returns
directly after parsing: the handle is not touched and nothing is persisted. -/
def fs_ls (h : Handle) (lsOutput : String) : List FileInfo × OpEffect :=
  (lsParse lsOutput, ⟨h, []⟩)

/-! ## Exec with timeout (`quixand/container/docker_runtime.py`) and
`run` (`quixand/adapters/local_docker.py` lines 310-344)

`DockerRuntime.exec_in_container` (lines 261-353) starts the exec in a
worker thread and calls `thread.join(timeout)`; when the worker is still
alive after the join it raises `TimeoutError` and abandons the exec — the
container itself is not stopped. The oracle below fixes how long the
in-container command would need and what it would print; the clock effect
of `thread.join(timeout)` is that the caller blocks for the command's
duration or for `timeout`, whichever is smaller. -/

/-- How the engine would answer one exec: the seconds the in-container
command needs, its combined stdout, and its exit code. -/
structure ExecOracle where
  duration : Nat
  output : String
  exit_code : Int
  deriving DecidableEq

/-- Failures of `exec_in_container`. -/
inductive ExecErr where
  /-- `NotFound` from the backend, re-raised as `ValueError` (line 349). -/
  | notFound
  /-- `TimeoutError(f"Command timed out after {timeout}s")` (line 319). -/
  | timeout (limit : Nat)
  deriving DecidableEq

/-- `ExecResult` (`container/base.py`): exit code, combined stdout, stderr
(empty unless the backend separates streams), and duration. -/
structure ExecResult where
  exit_code : Int
  stdout : String
  stderr : String
  duration_seconds : Nat
  deriving DecidableEq

/-- Python truthiness of the optional timeout at `if timeout:`
(`docker_runtime.py` line 292): `None` and `0` are falsy, any other
integer is truthy. -/
def timeoutTruthy : Option Nat → Bool
  | none => false
  | some t => t != 0

/-- `DockerRuntime.exec_in_container` (lines 261-353): the worker-thread
timeout path is guarded by `if timeout:` (line 292), so it is taken only
for a truthy (non-`None`, non-zero) budget; there the blocking `exec_start`
runs in a worker joined for `timeout` seconds, and a command finishing
within the budget yields the combined output with empty stderr (lines
324-326) while an unfinished one raises `TimeoutError` (line 319). With a
falsy timeout — `None` or `0` — the call takes the `else` branch (lines
327-337) and blocks until the command finishes. -/
def exec_in_container (alive : Bool) (o : ExecOracle) (timeout : Option Nat) :
    Except ExecErr ExecResult :=
  if !alive then .error .notFound
  else if timeoutTruthy timeout then
    if timeout.getD 0 < o.duration then .error (.timeout (timeout.getD 0))
    else .ok ⟨o.exit_code, o.output, "", o.duration⟩
  else .ok ⟨o.exit_code, o.output, "", o.duration⟩

/-- Seconds the caller is blocked inside `exec_in_container`: on the truthy
timeout path `thread.join(timeout)` returns when the worker finishes or
when the budget elapses, whichever comes first; on the falsy path — `None`
or `0` — the call never reaches `thread.join` and blocks for the command's
full duration. -/
def exec_elapsed (o : ExecOracle) (timeout : Option Nat) : Nat :=
  if timeoutTruthy timeout then min o.duration (timeout.getD 0)
  else o.duration

/-- `CommandResult` (`quixand/types.py`): decoded text, raw stdout, raw
stderr, exit code, duration. -/
structure CommandResult where
  text : String
  stdout : String
  stderr : String
  exit_code : Int
  duration_s : Nat
  deriving DecidableEq

/-- Failures of `LocalDockerAdapter.run`. -/
inductive RunErr where
  /-- `QSTimeout(f"Command timed out after {timeout}s")` (line 328). -/
  | qsTimeout (limit : Nat)
  /-- any other exec exception, re-raised unchanged (lines 329-330). -/
  | reraised
  deriving DecidableEq

instance {ε α : Type} [DecidableEq ε] [DecidableEq α] : DecidableEq (Except ε α) := fun
  | .ok a, .ok b =>
    match decEq a b with
    | isTrue h => isTrue (by rw [h])
    | isFalse h => isFalse (fun c => h (by injection c))
  | .error a, .error b =>
    match decEq a b with
    | isTrue h => isTrue (by rw [h])
    | isFalse h => isFalse (fun c => h (by injection c))
  | .ok _, .error _ => isFalse (fun c => Except.noConfusion c)
  | .error _, .ok _ => isFalse (fun c => Except.noConfusion c)

/-- Everything observable about one `run` call. -/
structure RunOutcome where
  result : Except RunErr CommandResult
  handle : Handle
  containerAlive : Bool
  stateWrites : List StoreWrite
  deriving DecidableEq

/-- `LocalDockerAdapter.run` (lines 310-344): build the shell command, exec
with the timeout, convert `TimeoutError` to `QSTimeout` and re-raise other
errors; only on success update `last_active_at` and persist (lines 335-336).
The container-alive flag is passed through untouched: nothing in `run`
stops or removes the container. -/
def adapter_run (file : StateFileContent) (h : Handle) (alive : Bool)
    (o : ExecOracle) (timeout : Option Nat) (now : Nat) : RunOutcome :=
  match exec_in_container alive o timeout with
  | .error (.timeout t) => ⟨.error (.qsTimeout t), h, alive, []⟩
  | .error .notFound => ⟨.error .reraised, h, alive, []⟩
  | .ok res =>
    let h' := { h with last_active_at := now }
    ⟨.ok ⟨res.stdout, res.stdout, res.stderr, res.exit_code, exec_elapsed o timeout⟩,
      h', alive, [(persist_handle file h').2]⟩

/-! ## Shutdown (`quixand/core/sandbox.py` lines 87-94,
`quixand/adapters/local_docker.py` lines 179-185)

The world a shutdown acts on: whether the container is still known to the
engine, the state file, and the two host directories. -/

/-- Host-visible state owned by one sandbox. -/
structure SbxWorld where
  containerInRuntime : Bool
  file : StateFileContent
  scratchExists : Bool
  volumeExists : Bool
  deriving DecidableEq

/-- `LocalDockerAdapter.shutdown` (lines 179-185): `get_runtime` (which
raises when no engine is reachable — the `runtimeOk` flag), then
`stop_container` (swallows errors), `remove_container(force=True)` (swallows
errors), `_remove_state`, `_cleanup_host_dirs` (swallows errors). After it
the container is gone, the entry is popped and the popped document is the
file content, and both directories are deleted. -/
def adapter_shutdown (runtimeOk : Bool) (h : Handle) (w : SbxWorld) :
    Except Unit SbxWorld :=
  if !runtimeOk then .error ()
  else
    let state' := (remove_state w.file h.id).1
    .ok ⟨false, .valid state', false, false⟩

/-- `Sandbox.shutdown` (lines 87-94): return immediately when already
closed; otherwise call the adapter's shutdown with every exception
swallowed (lines 90-93) and set `_closed = True`. The codomain has no
error channel: this is the embedding of "non-raising". -/
def sandbox_shutdown (runtimeOk : Bool) (h : Handle) :
    Bool × SbxWorld → Bool × SbxWorld
  | (closed, w) =>
    if closed then (true, w)
    else
      match adapter_shutdown runtimeOk h w with
      | .ok w' => (true, w')
      | .error _ => (true, w)

/-- `n` successive calls of `Sandbox.shutdown` on the same sandbox. -/
def sandbox_shutdownN (runtimeOk : Bool) (h : Handle) :
    Nat → Bool × SbxWorld → Bool × SbxWorld
  | 0, s => s
  | n + 1, s => sandbox_shutdownN runtimeOk h n (sandbox_shutdown runtimeOk h s)

/-! ## Runtime stop/remove/start/inspect error discipline
(`quixand/container/docker_runtime.py` lines 150-182 and 184-249,
`quixand/container/podman_runtime.py` lines 130-165 and onwards)

A backend call's answer is one of: success, the container was not found,
or a backend error carrying a message (`APIError` for Docker; any other
exception for Podman — both runtimes catch exactly these classes). -/

/-- How the engine answered one backend call. -/
inductive Backend where
  | ok
  | notFound
  | apiError (msg : String)
  deriving DecidableEq

/-- Errors a runtime method can surface. -/
inductive RtErr where
  /-- `ValueError(f"Container {id} not found")`. -/
  | notFound (id : String)
  /-- `RuntimeError` with the backend message attached. -/
  | runtimeError (msg : String)
  deriving DecidableEq

/-- `DockerRuntime.stop_container` (lines 159-168): `NotFound` is treated as
already stopped; `APIError` is logged and swallowed. Never raises. -/
def docker_stop_container (b : Backend) : Except RtErr Unit :=
  match b with
  | .ok => .ok ()
  | .notFound => .ok ()
  | .apiError _ => .ok ()

/-- `DockerRuntime.remove_container` (lines 170-182): `NotFound` is treated
as already removed; `APIError` is swallowed only when `force` was requested,
otherwise a `RuntimeError` is raised. -/
def docker_remove_container (b : Backend) (force : Bool) : Except RtErr Unit :=
  match b with
  | .ok => .ok ()
  | .notFound => .ok ()
  | .apiError m =>
    if force then .ok ()
    else .error (.runtimeError ("Failed to remove container: " ++ m))

/-- `DockerRuntime.start_container` (lines 150-157): `NotFound` surfaces
`ValueError(... not found)`; `APIError` surfaces `RuntimeError`. -/
def docker_start_container (id : String) (b : Backend) : Except RtErr Unit :=
  match b with
  | .ok => .ok ()
  | .notFound => .error (.notFound id)
  | .apiError m => .error (.runtimeError ("Failed to start container: " ++ m))

/-- `DockerRuntime.get_container_info` (lines 184-249), success payload
abstracted: `NotFound` surfaces `ValueError(... not found)`; any other
failure surfaces `RuntimeError`. -/
def docker_get_container_info (id : String) (b : Backend) : Except RtErr Unit :=
  match b with
  | .ok => .ok ()
  | .notFound => .error (.notFound id)
  | .apiError m => .error (.runtimeError ("Failed to inspect container: " ++ m))

/-- `PodmanRuntime.stop_container` (lines 139-148): `NotFound` passes, any
other exception is swallowed. Never raises. -/
def podman_stop_container (b : Backend) : Except RtErr Unit :=
  match b with
  | .ok => .ok ()
  | .notFound => .ok ()
  | .apiError _ => .ok ()

/-- `PodmanRuntime.remove_container` (lines 150-162): `NotFound` passes;
other errors are swallowed only under `force`, else `RuntimeError`. -/
def podman_remove_container (b : Backend) (force : Bool) : Except RtErr Unit :=
  match b with
  | .ok => .ok ()
  | .notFound => .ok ()
  | .apiError m =>
    if force then .ok ()
    else .error (.runtimeError ("Failed to remove container: " ++ m))

/-- `PodmanRuntime.start_container` (lines 130-137): `NotFound` surfaces
`ValueError(... not found)`; other errors surface `RuntimeError`. -/
def podman_start_container (id : String) (b : Backend) : Except RtErr Unit :=
  match b with
  | .ok => .ok ()
  | .notFound => .error (.notFound id)
  | .apiError m => .error (.runtimeError ("Failed to start container: " ++ m))

/-- `PodmanRuntime.get_container_info`, success payload abstracted:
`NotFound` surfaces `ValueError(... not found)`; other failures surface
`RuntimeError`. -/
def podman_get_container_info (id : String) (b : Backend) : Except RtErr Unit :=
  match b with
  | .ok => .ok ()
  | .notFound => .error (.notFound id)
  | .apiError m => .error (.runtimeError ("Failed to inspect container: " ++ m))

/-! ## Proxy dispatch (`quixand/core/proxy.py` lines 113-151)

`_make_request` executes curl inside the container and parses the sentinel;
its answer is a pair (HTTP status, body). The embedding takes the
container's HTTP service as an oracle `responses : path → status × body`,
and Python's `json.loads` as an oracle `decode : body → Option J` (`none`
when `json.loads` would raise). -/

/-- Python slice `s[:n]`: the first `n` characters of `s`. -/
def pySlice (s : String) (n : Nat) : String :=
  String.mk (s.data.take n)

/-- `QSProxyError` as raised at line 145: the message
`f"Proxy call failed with HTTP {status}: {body[:200]}"`; the embedding keeps
the two values interpolated into it. -/
structure ProxyError where
  status : Nat
  preview : String
  deriving DecidableEq

/-- What `ProxyFacade.run` returns to the caller on a 2xx reply. -/
inductive ProxyResult (J : Type) where
  /-- `json.loads(body)` succeeded. -/
  | parsed (j : J)
  /-- `json.loads(body)` raised, the raw body is returned (line 151). -/
  | raw (body : String)
  /-- the body was empty: `json.loads(body) if body else None` (line 149). -/
  | pyNone
  deriving DecidableEq

/-- The fallback loop of `ProxyFacade.run` (lines 138-142): request each
fallback path in order, stopping at the first non-404 reply; when every
fallback replies 404 the last reply is kept. -/
def proxy_try_fallbacks (responses : String → Nat × String) :
    List String → Nat × String → Nat × String
  | [], last => last
  | fp :: rest, _ =>
    let r := responses fp
    if r.1 ≠ 404 then r else proxy_try_fallbacks responses rest r

/-- The (status, body) pair `ProxyFacade.run` acts on after the fallback
handling of lines 136-142: the primary reply, replaced by the fallback
loop's result when the primary replied 404 and fallback paths were given. -/
def proxy_final (responses : String → Nat × String) (path : String)
    (fallback_paths : List String) : Nat × String :=
  let pr := responses path
  if pr.1 = 404 ∧ fallback_paths ≠ [] then
    proxy_try_fallbacks responses fallback_paths pr
  else pr

/-- `ProxyFacade.run` (lines 113-151), after the readiness wait: send the
primary request; when it replies 404 and fallback paths were given, run the
fallback loop; raise `QSProxyError` when the final status is outside
[200, 300), with the status and the body truncated to 200 characters
(line 145); otherwise JSON-decode a non-empty body, returning the raw body
when decoding raises, and return `None` for an empty body (lines 148-151). -/
def proxy_run {J : Type} (responses : String → Nat × String)
    (decode : String → Option J) (path : String) (fallback_paths : List String) :
    Except ProxyError (ProxyResult J) :=
  let fr := proxy_final responses path fallback_paths
  if fr.1 < 200 ∨ 300 ≤ fr.1 then
    .error ⟨fr.1, pySlice fr.2 200⟩
  else
    .ok (if fr.2 ≠ "" then
           match decode fr.2 with
           | some j => .parsed j
           | none => .raw fr.2
         else .pyNone)

/-- The specification's reading of the final reply, written from the
amended claim's words for comparison with `proxy_final`: the first non-404
among the tried replies (the primary, then — only when the primary replied
404 — each fallback in order), or the last tried reply when all replied
404. -/
def proxy_spec_final (responses : String → Nat × String) (path : String)
    (fallback_paths : List String) : Nat × String :=
  let tried := responses path ::
    (if (responses path).1 = 404 then fallback_paths.map responses else [])
  match tried.find? (fun r => r.1 ≠ 404) with
  | some r => r
  | none => tried.getLast?.getD (responses path)

/-- The specification's reading of the dispatch, written from the amended
claim's words for comparison with `proxy_run`: act on the spec-side final
reply; a final status outside [200, 300) raises with the status and a
preview of at most 200 characters, and a 2xx reply yields the decoded
non-empty body, the raw body when decoding fails, and `None` when empty. -/
def proxy_run_specModel {J : Type} (responses : String → Nat × String)
    (decode : String → Option J) (path : String) (fallback_paths : List String) :
    Except ProxyError (ProxyResult J) :=
  let fr := proxy_spec_final responses path fallback_paths
  if 200 ≤ fr.1 ∧ fr.1 < 300 then
    .ok (if fr.2 = "" then .pyNone
         else match decode fr.2 with
              | some j => .parsed j
              | none => .raw fr.2)
  else
    .error ⟨fr.1, pySlice fr.2 200⟩

/-! ## Playground pool (`quixand/core/playground.py`)

Sandboxes are identified by the order of their creation: the `k`-th sandbox
the pool ever constructs is `k`. The pool state mirrors the fields of
`Playground`: the capacity `n`, the LIFO (`head` = top of the stack, the
most recently put element), the `_all` tracking list, and the `_entered` /
`_closed` flags. -/

/-- The state of one `Playground`. -/
structure PoolState where
  n : Nat
  pool : List Nat
  all : List Nat
  entered : Bool
  closed : Bool
  next : Nat
  deriving DecidableEq

/-- `Playground.__enter__` (lines 89-107): when not yet entered, construct
`n` sandboxes, appending each to `_all` and pushing each onto the LIFO (so
the last constructed ends on top), then mark entered. -/
def pg_enter (st : PoolState) : PoolState :=
  if st.entered then st
  else
    let ids := (List.range st.n).map (fun k => st.next + k)
    { st with
      pool := ids.reverse ++ st.pool
      all := st.all ++ ids
      entered := true
      next := st.next + st.n }

/-- `Playground.create` (lines 144-170): lazily prewarm when neither
entered nor closed; then `get_nowait` pops the top of the LIFO; on `Empty`,
construct a fresh sandbox and track it in `_all`. -/
def pg_create (st : PoolState) : Nat × PoolState :=
  let st1 := if !st.entered && !st.closed then pg_enter st else st
  match st1.pool with
  | sbx :: rest => (sbx, { st1 with pool := rest })
  | [] =>
    (st1.next, { st1 with all := st1.all ++ [st1.next], next := st1.next + 1 })

/-- `Playground.release` (lines 172-186): a sandbox unknown to `_all` is
ignored; otherwise `put_nowait` pushes it onto the LIFO, and the `Full`
exception of a pool already holding `n` sandboxes is swallowed, discarding
the sandbox. Total: no error channel. -/
def pg_release (st : PoolState) (sbx : Nat) : PoolState :=
  if sbx ∈ st.all then
    if st.pool.length < st.n then { st with pool := sbx :: st.pool }
    else st
  else st

/-- Whether the path `p` lies under the directory `root`: `root` is a
prefix of `p` character by character. -/
def pathUnder (root p : String) : Bool :=
  List.isPrefixOf root.data p.data

/-! ## Theorems -/

/-- C9. The claim says setting `QS_ROOT` relocates the State Store file, the
templates index and the scratch/volume directories under the named
directory. It does not: `Config.root` picks up `QS_ROOT`, but
`Config.state_file()` returns the module constant `STATE_FILE` computed
from `HOME` alone, and the templates, scratch and volume paths all derive
from it. Concretely, with `HOME=/home/user` and `QS_ROOT=/custom`, the
root field is `/custom` yet none of the four paths lies under `/custom`. -/
theorem qsroot_ignored_counterexample :
    (Config.root (fun n => if n = "HOME" then some "/home/user"
      else if n = "QS_ROOT" then some "/custom" else none) = "/custom")
    ∧ (Config.state_file (fun n => if n = "HOME" then some "/home/user"
        else if n = "QS_ROOT" then some "/custom" else none) =
        "/home/user/.quicksand/state.json")
    ∧ (pathUnder "/custom" (Config.state_file (fun n => if n = "HOME" then some "/home/user"
        else if n = "QS_ROOT" then some "/custom" else none)) = false)
    ∧ (pathUnder "/custom" (Config.templates_dir (fun n => if n = "HOME" then some "/home/user"
        else if n = "QS_ROOT" then some "/custom" else none)) = false)
    ∧ (pathUnder "/custom" (scratch_dir (fun n => if n = "HOME" then some "/home/user"
        else if n = "QS_ROOT" then some "/custom" else none) "sbx1") = false)
    ∧ (pathUnder "/custom" (volume_dir (fun n => if n = "HOME" then some "/home/user"
        else if n = "QS_ROOT" then some "/custom" else none) "sbx1") = false) := by
  refine ⟨rfl, rfl, ?_, ?_, ?_, ?_⟩ <;> decide

/-- C9 (amended). `QS_ROOT` only overrides the `root` field of `Config`;
the State Store file, templates index, scratch directories and volume
directories are unaffected by it, staying under `HOME/.quicksand`. -/
theorem qsroot_only_sets_root_field (env : Env) (v sbxId : String) :
    Config.root (env.set "QS_ROOT" v) = v
    ∧ Config.state_file (env.set "QS_ROOT" v) = Config.state_file env
    ∧ Config.state_file env = STATE_DIR env ++ "/state.json"
    ∧ Config.templates_dir (env.set "QS_ROOT" v) = Config.templates_dir env
    ∧ scratch_dir (env.set "QS_ROOT" v) sbxId = scratch_dir env sbxId
    ∧ volume_dir (env.set "QS_ROOT" v) sbxId = volume_dir env sbxId := by
  have hset : ∀ n, n ≠ "QS_ROOT" → Env.set env "QS_ROOT" v n = env n := by
    intro n hn
    simp [Env.set, hn]
  refine ⟨?_, ?_, rfl, ?_, ?_, ?_⟩
  · simp [Config.root, Env.getD, Env.set]
  · simp [Config.state_file, STATE_FILE, STATE_DIR, Env.getD,
      hset "HOME" (by decide)]
  · simp [Config.templates_dir, TEMPLATES_DIR, STATE_DIR, Env.getD,
      hset "HOME" (by decide)]
  · simp [scratch_dir, STATE_DIR, Env.getD, hset "HOME" (by decide)]
  · simp [volume_dir, STATE_DIR, Env.getD, hset "HOME" (by decide)]

/-- C1. For a state entry with `created_at = c`, `last_active_at = t0` and
`timeout_seconds = D` (and a non-empty container id, with a reachable
runtime), one watchdog iteration performs the full reap — stop+remove the
container, delete the scratch/volume directories, remove the state entry,
exit 0 — exactly when `now ≥ t0 + D` (idle deadline) or
`now ≥ c + max (2*D) (D+60)` (hard deadline); in particular the container
is never stopped while both deadlines are in the future. -/
theorem watchdog_reaps_exactly_at_deadlines
    (file : StateFileContent) (sbxId cid rtN wdr adap : String)
    (c t0 D now : Nat) (containerExists : Bool)
    (hentry : (watchdog_load_state file).get sbxId =
      some ⟨cid, rtN, wdr, some c, some t0, some D, adap⟩)
    (hcid : cid ≠ "") :
    (((watchdog_tick file sbxId now true containerExists).stopRemove = true ∧
      (watchdog_tick file sbxId now true containerExists).cleanedDirs = true ∧
      (watchdog_tick file sbxId now true containerExists).removedEntry = true ∧
      (watchdog_tick file sbxId now true containerExists).exitCode = some 0 ∧
      (watchdog_tick file sbxId now true containerExists).stateWrites =
        [StoreWrite.direct ((watchdog_load_state file).pop sbxId)]) ↔
      (t0 + D ≤ now ∨ c + max (2 * D) (D + 60) ≤ now)) ∧
    (now < t0 + D → now < c + max (2 * D) (D + 60) →
      (watchdog_tick file sbxId now true containerExists).stopRemove = false) := by
  have h2 : (2 : Nat) * D = D * 2 := Nat.mul_comm 2 D
  rw [h2]
  have htick : watchdog_tick file sbxId now true containerExists =
      (if t0 + D ≤ now ∨ c + max (D * 2) (D + 60) ≤ now then
        ⟨some 0, (cid != "") && true, true, true,
          [path_write_text ((watchdog_load_state file).pop sbxId)]⟩
      else if (cid != "") && true && !containerExists then
        ⟨some 0, false, true, true,
          [path_write_text ((watchdog_load_state file).pop sbxId)]⟩
      else ⟨none, false, false, false, []⟩) := by
    simp only [watchdog_tick]
    rw [hentry]
    rfl
  have hcid' : (cid != "") = true := by
    simpa using hcid
  rw [htick]
  by_cases hdl : t0 + D ≤ now ∨ c + max (D * 2) (D + 60) ≤ now
  · rw [if_pos hdl]
    refine ⟨⟨fun _ => hdl, fun _ => ?_⟩, fun hlt1 hlt2 => ?_⟩
    · simp [path_write_text, hcid']
    · exact absurd hdl (by omega)
  · rw [if_neg hdl]
    refine ⟨⟨fun hr => ?_, fun h => absurd h hdl⟩, fun _ _ => ?_⟩
    · by_cases hgone : (cid != "") && true && !containerExists
      · rw [if_pos hgone] at hr
        simp at hr
      · rw [if_neg hgone] at hr
        simp at hr
    · by_cases hgone : (cid != "") && true && !containerExists
      · rw [if_pos hgone]
      · rw [if_neg hgone]

/-- Witness for C1: a concrete entry (`created_at = 0`, `last_active_at = 5`,
`timeout_seconds = 10`) observed at `now = 15`, when the idle deadline has
just been reached. -/
theorem watchdog_reaps_witness :
    ((watchdog_load_state (.valid [("s",
        ⟨"c1", "docker", "/workspace", some 0, some 5, some 10, "local-docker"⟩)])).get "s" =
      some ⟨"c1", "docker", "/workspace", some 0, some 5, some 10, "local-docker"⟩)
    ∧ ("c1" : String) ≠ ""
    ∧ ((((watchdog_tick (.valid [("s",
        ⟨"c1", "docker", "/workspace", some 0, some 5, some 10, "local-docker"⟩)]) "s" 15 true true).stopRemove = true ∧
      (watchdog_tick (.valid [("s",
        ⟨"c1", "docker", "/workspace", some 0, some 5, some 10, "local-docker"⟩)]) "s" 15 true true).cleanedDirs = true ∧
      (watchdog_tick (.valid [("s",
        ⟨"c1", "docker", "/workspace", some 0, some 5, some 10, "local-docker"⟩)]) "s" 15 true true).removedEntry = true ∧
      (watchdog_tick (.valid [("s",
        ⟨"c1", "docker", "/workspace", some 0, some 5, some 10, "local-docker"⟩)]) "s" 15 true true).exitCode = some 0 ∧
      (watchdog_tick (.valid [("s",
        ⟨"c1", "docker", "/workspace", some 0, some 5, some 10, "local-docker"⟩)]) "s" 15 true true).stateWrites =
        [StoreWrite.direct ((watchdog_load_state (.valid [("s",
          ⟨"c1", "docker", "/workspace", some 0, some 5, some 10, "local-docker"⟩)])).pop "s")]) ↔
      (5 + 10 ≤ 15 ∨ 0 + max (2 * 10) (10 + 60) ≤ 15)) ∧
    (15 < 5 + 10 → 15 < 0 + max (2 * 10) (10 + 60) →
      (watchdog_tick (.valid [("s",
        ⟨"c1", "docker", "/workspace", some 0, some 5, some 10, "local-docker"⟩)]) "s" 15 true true).stopRemove = false)) :=
  ⟨by decide, by decide,
    watchdog_reaps_exactly_at_deadlines
      (.valid [("s", ⟨"c1", "docker", "/workspace", some 0, some 5, some 10, "local-docker"⟩)])
      "s" "c1" "docker" "/workspace" "local-docker" 0 5 10 15 true
      (by decide) (by decide)⟩

/-- C3. The claim says every State Store write, by the adapter and by the
watchdog, goes through write-temp-then-rename. The watchdog's writes do
not: a reaping iteration rewrites the state file with a plain
`Path.write_text` (`watchdog.py` line 102). Concretely, reaping the only
entry writes the emptied document directly. -/
theorem watchdog_write_not_atomic_counterexample :
    ((watchdog_tick (.valid [("s",
        ⟨"c1", "docker", "/w", some 0, some 0, some 10, "local-docker"⟩)])
        "s" 100 true true).stateWrites = [StoreWrite.direct []])
    ∧ (((watchdog_tick (.valid [("s",
        ⟨"c1", "docker", "/w", some 0, some 0, some 10, "local-docker"⟩)])
        "s" 100 true true).stateWrites.all StoreWrite.isAtomic) = false) := by
  constructor <;> decide

/-- C3 (amended). Both readers of the State Store return the empty document
when the file is missing or its content does not parse; every write issued
by the adapter (each operation, `_persist_handle` and `_remove_state`) goes
through write-temp-then-rename; the watchdog's writes are plain in-place
`write_text` calls. -/
theorem statestore_write_discipline :
    (adapter_load_state .missing = [] ∧ adapter_load_state .corrupt = [] ∧
     watchdog_load_state .missing = [] ∧ watchdog_load_state .corrupt = [] ∧
     ∀ s : StateStore, adapter_load_state (.valid s) = s ∧
       watchdog_load_state (.valid s) = s) ∧
    (∀ (file : StateFileContent) (h : Handle) (now seconds : Nat),
      ((fs_write file h now).stateWrites.all StoreWrite.isAtomic) = true ∧
      ((fs_read file h now).stateWrites.all StoreWrite.isAtomic) = true ∧
      ((fs_mkdir file h now).stateWrites.all StoreWrite.isAtomic) = true ∧
      ((fs_rm file h now).stateWrites.all StoreWrite.isAtomic) = true ∧
      ((fs_mv file h now).stateWrites.all StoreWrite.isAtomic) = true ∧
      ((fs_put file h now).stateWrites.all StoreWrite.isAtomic) = true ∧
      ((fs_get file h now).stateWrites.all StoreWrite.isAtomic) = true ∧
      ((refresh_timeout file h seconds now).stateWrites.all StoreWrite.isAtomic) = true ∧
      ((persist_handle file h).2.isAtomic = true) ∧
      ((remove_state file h.id).2.isAtomic = true)) ∧
    (∀ (file : StateFileContent) (h : Handle) (alive : Bool) (o : ExecOracle)
        (t : Option Nat) (now : Nat),
      ((adapter_run file h alive o t now).stateWrites.all StoreWrite.isAtomic) = true) ∧
    (∀ (file : StateFileContent) (sbxId : String) (now : Nat) (ra ce : Bool),
      ∀ w ∈ (watchdog_tick file sbxId now ra ce).stateWrites, w.isAtomic = false) := by
  refine ⟨⟨rfl, rfl, rfl, rfl, fun s => ⟨rfl, rfl⟩⟩, ?_, ?_, ?_⟩
  · intro file h now seconds
    simp [fs_write, fs_read, fs_mkdir, fs_rm, fs_mv, fs_put, fs_get,
      refresh_timeout, touch_and_persist, persist_handle, remove_state,
      atomic_write_text, StoreWrite.isAtomic]
  · intro file h alive o t now
    simp only [adapter_run]
    cases hexec : exec_in_container alive o t with
    | error e =>
      cases e <;> simp [StoreWrite.isAtomic]
    | ok res =>
      simp [touch_and_persist, persist_handle, atomic_write_text, StoreWrite.isAtomic]
  · intro file sbxId now ra ce w hw
    simp only [watchdog_tick] at hw
    cases hget : (watchdog_load_state file).get sbxId with
    | none =>
      rw [hget] at hw
      simp at hw
    | some e =>
      rw [hget] at hw
      simp only at hw
      split at hw
      · simp [path_write_text] at hw
        rw [hw]
        rfl
      · split at hw
        · simp [path_write_text] at hw
          rw [hw]
          rfl
        · simp at hw

/-- C2. The claim says every successful operation — `fs_ls` included — sets
`last_active_at` to the current time and atomically rewrites the State
Store before returning. `fs_ls` (`local_docker.py` lines 242-266) does
neither: it parses the `ls` output and returns. Concretely, on a handle
with `last_active_at = 0` a successful `fs_ls` leaves the handle at 0
(never the later clock reading 5) and issues no State Store write. -/
theorem fs_ls_does_not_touch_counterexample :
    ((fs_ls ⟨"c1", "i", "docker", "/w", 0, 0, 30⟩ "total 0").2.handle.last_active_at = 0)
    ∧ ((0 : Nat) ≠ 5)
    ∧ ((fs_ls ⟨"c1", "i", "docker", "/w", 0, 0, 30⟩ "total 0").2.stateWrites = []) := by
  refine ⟨rfl, by decide, rfl⟩

/-- C2 (amended). Every successful mutating operation — `run`, `fs_write`,
`fs_read`, `fs_mkdir`, `fs_rm`, `fs_mv`, `fs_put`, `fs_get`,
`refresh_timeout` — sets the handle's `last_active_at` to the current time
and atomically rewrites the State Store with the updated record before
returning; `fs_ls` alone returns without touching the handle or the store. -/
theorem ops_touch_and_persist
    (file : StateFileContent) (h : Handle) (now seconds t : Nat)
    (o : ExecOracle) (lsOut : String) (hdur : o.duration ≤ t) :
    (fs_write file h now = ⟨{ h with last_active_at := now },
      [StoreWrite.atomicTempRename ((adapter_load_state file).set h.id
        (Handle.toEntry { h with last_active_at := now }))]⟩) ∧
    (fs_read file h now = fs_write file h now) ∧
    (fs_mkdir file h now = fs_write file h now) ∧
    (fs_rm file h now = fs_write file h now) ∧
    (fs_mv file h now = fs_write file h now) ∧
    (fs_put file h now = fs_write file h now) ∧
    (fs_get file h now = fs_write file h now) ∧
    (refresh_timeout file h seconds now =
      ⟨{ h with timeout_seconds := seconds, last_active_at := now },
      [StoreWrite.atomicTempRename ((adapter_load_state file).set h.id
        (Handle.toEntry { h with timeout_seconds := seconds, last_active_at := now }))]⟩) ∧
    ((adapter_run file h true o (some t) now).handle =
      { h with last_active_at := now }) ∧
    ((adapter_run file h true o (some t) now).stateWrites =
      [StoreWrite.atomicTempRename ((adapter_load_state file).set h.id
        (Handle.toEntry { h with last_active_at := now }))]) ∧
    ((adapter_run file h true o (some t) now).result =
      .ok ⟨o.output, o.output, "", o.exit_code, min o.duration t⟩) ∧
    ((fs_ls h lsOut).2 = ⟨h, []⟩) := by
  have hexec : exec_in_container true o (some t) =
      .ok ⟨o.exit_code, o.output, "", o.duration⟩ := by
    by_cases ht : t = 0
    · simp [exec_in_container, timeoutTruthy, ht]
    · simp [exec_in_container, timeoutTruthy, ht, Nat.not_lt.mpr hdur]
  have helap : exec_elapsed o (some t) = min o.duration t := by
    by_cases ht : t = 0
    · subst ht
      have he : exec_elapsed o (some 0) = o.duration := by
        simp [exec_elapsed, timeoutTruthy]
      rw [he, Nat.min_zero]
      omega
    · simp [exec_elapsed, timeoutTruthy, ht]
  have hrun : adapter_run file h true o (some t) now =
      ⟨.ok ⟨o.output, o.output, "", o.exit_code, min o.duration t⟩,
        { h with last_active_at := now }, true,
        [(persist_handle file { h with last_active_at := now }).2]⟩ := by
    simp only [adapter_run]
    rw [hexec, helap]
  refine ⟨rfl, rfl, rfl, rfl, rfl, rfl, rfl, rfl, ?_, ?_, ?_, rfl⟩
  · rw [hrun]
  · rw [hrun]
    rfl
  · rw [hrun]

/-- Witness for C2 (amended) at a concrete handle, clock reading 5, a
command needing 1 second under a 3-second budget. -/
theorem ops_touch_and_persist_witness :
    ((⟨1, "ok", 0⟩ : ExecOracle).duration ≤ 3)
    ∧ ((fs_write .missing ⟨"c1", "i", "docker", "/w", 0, 0, 30⟩ 5).handle.last_active_at = 5)
    ∧ ((adapter_run .missing ⟨"c1", "i", "docker", "/w", 0, 0, 30⟩ true ⟨1, "ok", 0⟩ (some 3) 5).result =
        .ok ⟨"ok", "ok", "", 0, min 1 3⟩) :=
  ⟨by decide,
    by rw [(ops_touch_and_persist .missing ⟨"c1", "i", "docker", "/w", 0, 0, 30⟩ 5 60 3
        ⟨1, "ok", 0⟩ "" (by decide)).1],
    (ops_touch_and_persist .missing ⟨"c1", "i", "docker", "/w", 0, 0, 30⟩ 5 60 3
        ⟨1, "ok", 0⟩ "" (by decide)).2.2.2.2.2.2.2.2.2.2.1⟩

/-- Once the closed flag is set, further `shutdown` calls change nothing. -/
lemma sandbox_shutdownN_closed (runtimeOk : Bool) (h : Handle) :
    ∀ (m : Nat) (w : SbxWorld),
      sandbox_shutdownN runtimeOk h m (true, w) = (true, w) := by
  intro m
  induction m with
  | zero => intro w; rfl
  | succ k ih =>
    intro w
    show sandbox_shutdownN runtimeOk h k (sandbox_shutdown runtimeOk h (true, w)) = _
    have : sandbox_shutdown runtimeOk h (true, w) = (true, w) := rfl
    rw [this, ih]

/-- C4. Calling `Sandbox.shutdown()` `n ≥ 1` times ends in exactly the state
one call ends in, and — when a runtime is reachable — that state has the
container removed, the state entry popped from the store, and both host
directories deleted. The model of `shutdown` is a total function with no
error channel, mirroring the `try/except` swallowing in
`sandbox.py` lines 90-93: no call raises. -/
theorem shutdown_idempotent (runtimeOk : Bool) (h : Handle) (w : SbxWorld)
    (n : Nat) (hn : 1 ≤ n) :
    sandbox_shutdownN runtimeOk h n (false, w) =
      sandbox_shutdownN runtimeOk h 1 (false, w)
    ∧ (runtimeOk = true →
        (sandbox_shutdownN runtimeOk h n (false, w)).2 =
          ⟨false, .valid ((adapter_load_state w.file).pop h.id), false, false⟩) := by
  obtain ⟨k, rfl⟩ : ∃ k, n = k + 1 := ⟨n - 1, by omega⟩
  have h1 : sandbox_shutdownN runtimeOk h (k + 1) (false, w) =
      sandbox_shutdownN runtimeOk h k (sandbox_shutdown runtimeOk h (false, w)) := rfl
  have hfst : ∃ w', sandbox_shutdown runtimeOk h (false, w) = (true, w') := by
    cases runtimeOk with
    | false => exact ⟨w, rfl⟩
    | true =>
      exact ⟨⟨false, .valid ((adapter_load_state w.file).pop h.id), false, false⟩, rfl⟩
  obtain ⟨w', hw'⟩ := hfst
  constructor
  · rw [h1, hw', sandbox_shutdownN_closed]
    show _ = sandbox_shutdownN runtimeOk h 0 (sandbox_shutdown runtimeOk h (false, w))
    rw [hw']
    rfl
  · intro hok
    subst hok
    have : sandbox_shutdown true h (false, w) =
        (true, ⟨false, .valid ((adapter_load_state w.file).pop h.id), false, false⟩) := rfl
    rw [h1, this, sandbox_shutdownN_closed]

/-- Witness for C4: three shutdowns of a live sandbox equal one, with the
container, entry and directories gone. -/
theorem shutdown_idempotent_witness :
    (1 ≤ 3)
    ∧ (sandbox_shutdownN true ⟨"c1", "i", "docker", "/w", 0, 0, 30⟩ 3
        (false, ⟨true, .valid [("i", Handle.toEntry ⟨"c1", "i", "docker", "/w", 0, 0, 30⟩)], true, true⟩) =
       sandbox_shutdownN true ⟨"c1", "i", "docker", "/w", 0, 0, 30⟩ 1
        (false, ⟨true, .valid [("i", Handle.toEntry ⟨"c1", "i", "docker", "/w", 0, 0, 30⟩)], true, true⟩)) :=
  ⟨by decide,
    (shutdown_idempotent true ⟨"c1", "i", "docker", "/w", 0, 0, 30⟩
      ⟨true, .valid [("i", Handle.toEntry ⟨"c1", "i", "docker", "/w", 0, 0, 30⟩)], true, true⟩
      3 (by decide)).1⟩

/-- C5. The claim quantifies over every timeout value, but `timeout=0` is
falsy at the `if timeout:` guard (`docker_runtime.py` line 292): the exec
takes the no-timeout blocking path, so `run(cmd, timeout=0)` against a
5-second command blocks the caller for the full 5 seconds — past the
claimed `0 + ε` bound — completes normally instead of raising `Timeout`,
and even advances `last_active_at` and persists. -/
theorem run_zero_timeout_counterexample :
    ((adapter_run .missing ⟨"c1", "i", "docker", "/w", 0, 0, 30⟩ true
        ⟨5, "x", 0⟩ (some 0) 7).result = .ok ⟨"x", "x", "", 0, 5⟩)
    ∧ ((adapter_run .missing ⟨"c1", "i", "docker", "/w", 0, 0, 30⟩ true
        ⟨5, "x", 0⟩ (some 0) 7).result ≠ .error (.qsTimeout 0))
    ∧ (exec_elapsed ⟨5, "x", 0⟩ (some 0) = 5)
    ∧ ¬((5 : Nat) ≤ 0)
    ∧ ((adapter_run .missing ⟨"c1", "i", "docker", "/w", 0, 0, 30⟩ true
        ⟨5, "x", 0⟩ (some 0) 7).handle.last_active_at = 7) := by
  refine ⟨by decide, by decide, by decide, by decide, by decide⟩

/-- C5 (amended). For every command and every positive timeout `t`: when
the in-container command needs longer than `t`, `run` raises `QSTimeout`;
the caller is blocked for at most `t` seconds (`thread.join(timeout)`);
the container is left alive and untouched; and a subsequent `run` on the
same sandbox whose command fits its budget returns the normal result. A
timeout of 0 is falsy at the `if timeout:` guard and behaves as no
timeout: the call blocks until the command finishes and returns normally. -/
theorem run_timeout_returns_control
    (file : StateFileContent) (h : Handle) (o : ExecOracle) (t now : Nat)
    (ht : 0 < t) (hdur : t < o.duration) :
    ((adapter_run file h true o (some t) now).result = .error (.qsTimeout t))
    ∧ (exec_elapsed o (some t) ≤ t)
    ∧ ((adapter_run file h true o (some t) now).containerAlive = true)
    ∧ ((adapter_run file h true o (some t) now).handle = h)
    ∧ ((adapter_run file h true o (some t) now).stateWrites = [])
    ∧ (∀ (file2 : StateFileContent) (o2 : ExecOracle) (t2 now2 : Nat),
        o2.duration ≤ t2 →
        (adapter_run file2 (adapter_run file h true o (some t) now).handle
            (adapter_run file h true o (some t) now).containerAlive
            o2 (some t2) now2).result =
          .ok ⟨o2.output, o2.output, "", o2.exit_code, o2.duration⟩) := by
  have ht0 : t ≠ 0 := by omega
  have hexec : exec_in_container true o (some t) = .error (.timeout t) := by
    simp [exec_in_container, timeoutTruthy, ht0, hdur]
  have hrun : adapter_run file h true o (some t) now =
      ⟨.error (.qsTimeout t), h, true, []⟩ := by
    simp only [adapter_run]
    rw [hexec]
  have helap : exec_elapsed o (some t) ≤ t := by
    simp only [exec_elapsed, timeoutTruthy]
    rw [if_pos (by simpa using ht0)]
    exact Nat.min_le_right _ _
  refine ⟨by rw [hrun], helap, by rw [hrun], by rw [hrun], by rw [hrun], ?_⟩
  intro file2 o2 t2 now2 hdur2
  have hexec2 : exec_in_container true o2 (some t2) =
      .ok ⟨o2.exit_code, o2.output, "", o2.duration⟩ := by
    by_cases ht2 : t2 = 0
    · simp [exec_in_container, timeoutTruthy, ht2]
    · simp [exec_in_container, timeoutTruthy, ht2, Nat.not_lt.mpr hdur2]
  have helap2 : exec_elapsed o2 (some t2) = o2.duration := by
    by_cases ht2 : t2 = 0
    · simp [exec_elapsed, timeoutTruthy, ht2]
    · simp [exec_elapsed, timeoutTruthy, ht2, Nat.min_eq_left hdur2]
  rw [hrun]
  simp only [adapter_run]
  rw [hexec2, helap2]

/-- Witness for C5 (amended): a command needing 10 seconds against a
positive 2-second budget. -/
theorem run_timeout_returns_control_witness :
    ((0 : Nat) < 2)
    ∧ (2 < (⟨10, "late", 1⟩ : ExecOracle).duration)
    ∧ ((adapter_run .missing ⟨"c1", "i", "docker", "/w", 0, 0, 30⟩ true
        ⟨10, "late", 1⟩ (some 2) 7).result = .error (.qsTimeout 2))
    ∧ ((adapter_run .missing ⟨"c1", "i", "docker", "/w", 0, 0, 30⟩ true
        ⟨10, "late", 1⟩ (some 2) 7).containerAlive = true) :=
  ⟨by decide, by decide,
    (run_timeout_returns_control .missing ⟨"c1", "i", "docker", "/w", 0, 0, 30⟩
      ⟨10, "late", 1⟩ 2 7 (by decide) (by decide)).1,
    (run_timeout_returns_control .missing ⟨"c1", "i", "docker", "/w", 0, 0, 30⟩
      ⟨10, "late", 1⟩ 2 7 (by decide) (by decide)).2.2.1⟩

/-- C10. Whenever `run` raises `QSTimeout` — for any timeout argument and
any exec outcome — the handle is returned unchanged, in particular
`last_active_at` keeps its old value, and no State Store write is issued,
so the watchdog's idle deadline is not extended by the timed-out command.
(The update and persist at `local_docker.py` lines 335-336 sit after the
re-raise at line 328.) -/
theorem run_timeout_leaves_state_unchanged
    (file : StateFileContent) (h : Handle) (alive : Bool) (o : ExecOracle)
    (t : Option Nat) (now lim : Nat)
    (hres : (adapter_run file h alive o t now).result = .error (.qsTimeout lim)) :
    ((adapter_run file h alive o t now).handle = h)
    ∧ ((adapter_run file h alive o t now).handle.last_active_at =
        h.last_active_at)
    ∧ ((adapter_run file h alive o t now).stateWrites = []) := by
  cases hexec : exec_in_container alive o t with
  | error e =>
    cases e with
    | notFound =>
      have hr : adapter_run file h alive o t now =
          ⟨.error .reraised, h, alive, []⟩ := by
        simp only [adapter_run]
        rw [hexec]
      rw [hr] at hres
      simp at hres
    | timeout l =>
      have hr : adapter_run file h alive o t now =
          ⟨.error (.qsTimeout l), h, alive, []⟩ := by
        simp only [adapter_run]
        rw [hexec]
      rw [hr]
      exact ⟨rfl, rfl, rfl⟩
  | ok res =>
    have hr : adapter_run file h alive o t now =
        ⟨.ok ⟨res.stdout, res.stdout, res.stderr, res.exit_code,
            exec_elapsed o t⟩,
          { h with last_active_at := now }, alive,
          [(persist_handle file { h with last_active_at := now }).2]⟩ := by
      simp only [adapter_run]
      rw [hexec]
    rw [hr] at hres
    simp at hres

/-- Witness for C10: a `QSTimeout`-raising run (10-second command, 2-second
budget) after which `last_active_at` still reads 4. -/
theorem run_timeout_leaves_state_unchanged_witness :
    ((adapter_run .missing ⟨"c1", "i", "docker", "/w", 3, 4, 30⟩ true
        ⟨10, "late", 1⟩ (some 2) 9).result = .error (.qsTimeout 2))
    ∧ ((adapter_run .missing ⟨"c1", "i", "docker", "/w", 3, 4, 30⟩ true
        ⟨10, "late", 1⟩ (some 2) 9).handle.last_active_at =
       (⟨"c1", "i", "docker", "/w", 3, 4, 30⟩ : Handle).last_active_at)
    ∧ ((adapter_run .missing ⟨"c1", "i", "docker", "/w", 3, 4, 30⟩ true
        ⟨10, "late", 1⟩ (some 2) 9).stateWrites = []) :=
  ⟨by decide,
    (run_timeout_leaves_state_unchanged .missing ⟨"c1", "i", "docker", "/w", 3, 4, 30⟩
      true ⟨10, "late", 1⟩ (some 2) 9 2 (by decide)).2.1,
    (run_timeout_leaves_state_unchanged .missing ⟨"c1", "i", "docker", "/w", 3, 4, 30⟩
      true ⟨10, "late", 1⟩ (some 2) 9 2 (by decide)).2.2⟩

/-- C7. The claim says stop and remove both swallow backend errors as
best-effort teardown. `remove_container` does so only under `force=True`:
with `force=False` a backend error surfaces `RuntimeError`
(`docker_runtime.py` lines 177-182, `podman_runtime.py` lines 157-162). -/
theorem remove_without_force_raises_counterexample :
    (docker_remove_container (.apiError "boom") false =
      .error (.runtimeError "Failed to remove container: boom"))
    ∧ (docker_remove_container (.apiError "boom") false ≠ .ok ())
    ∧ (podman_remove_container (.apiError "boom") false =
      .error (.runtimeError "Failed to remove container: boom"))
    ∧ (podman_remove_container (.apiError "boom") false ≠ .ok ()) := by
  refine ⟨rfl, by decide, rfl, by decide⟩

/-- C7 (amended). For both runtimes: `stop_container` never raises, treating
a missing container and any backend error as success; `remove_container`
treats a missing container as success and swallows backend errors exactly
when `force` is requested, surfacing `RuntimeError` otherwise; and
`start_container` and `get_container_info` on a missing container surface
the not-found error. -/
theorem runtime_stop_remove_discipline :
    (∀ b : Backend, docker_stop_container b = .ok () ∧
      podman_stop_container b = .ok ()) ∧
    (∀ force : Bool, docker_remove_container .notFound force = .ok () ∧
      podman_remove_container .notFound force = .ok ()) ∧
    (∀ b : Backend, docker_remove_container b true = .ok () ∧
      podman_remove_container b true = .ok ()) ∧
    (∀ m : String,
      docker_remove_container (.apiError m) false =
        .error (.runtimeError ("Failed to remove container: " ++ m)) ∧
      podman_remove_container (.apiError m) false =
        .error (.runtimeError ("Failed to remove container: " ++ m))) ∧
    (∀ id : String, docker_start_container id .notFound = .error (.notFound id) ∧
      podman_start_container id .notFound = .error (.notFound id) ∧
      docker_get_container_info id .notFound = .error (.notFound id) ∧
      podman_get_container_info id .notFound = .error (.notFound id)) := by
  refine ⟨fun b => ?_, fun force => ⟨rfl, rfl⟩, fun b => ?_,
    fun m => ⟨rfl, rfl⟩, fun id => ⟨rfl, rfl, rfl, rfl⟩⟩
  · cases b <;> exact ⟨rfl, rfl⟩
  · cases b <;> exact ⟨rfl, rfl⟩

/-- C8. The pool is LIFO: on an entered pool, after `release(s)` of a
sandbox it owns while there is room, the next `create()` returns `s`.
`release` re-enqueues exactly when the sandbox is owned by this pool and
the pool is not full, and otherwise returns with the state unchanged — it
is a total function, modelling that the `Full` case is swallowed and an
unknown sandbox is ignored. -/
theorem playground_lifo_release
    (st : PoolState) (s : Nat) (hent : st.entered = true)
    (hown : s ∈ st.all) (hroom : st.pool.length < st.n) :
    ((pg_create (pg_release st s)).1 = s)
    ∧ (pg_release st s = { st with pool := s :: st.pool })
    ∧ (∀ (st2 : PoolState) (x : Nat), x ∉ st2.all → pg_release st2 x = st2)
    ∧ (∀ (st2 : PoolState) (x : Nat), st2.n ≤ st2.pool.length →
        pg_release st2 x = st2) := by
  have hrel : pg_release st s = { st with pool := s :: st.pool } := by
    simp [pg_release, hown, hroom]
  refine ⟨?_, hrel, ?_, ?_⟩
  · rw [hrel]
    simp [pg_create, hent]
  · intro st2 x hx
    simp [pg_release, hx]
  · intro st2 x hfull
    simp [pg_release, Nat.not_lt.mpr hfull]

/-- Witness for C8: a pool of capacity 2, entered, owning sandboxes 0 and 1
with an empty LIFO; releasing 1 makes the next `create` return 1. -/
theorem playground_lifo_release_witness :
    ((⟨2, [], [0, 1], true, false, 2⟩ : PoolState).entered = true)
    ∧ (1 ∈ (⟨2, [], [0, 1], true, false, 2⟩ : PoolState).all)
    ∧ ((⟨2, [], [0, 1], true, false, 2⟩ : PoolState).pool.length <
        (⟨2, [], [0, 1], true, false, 2⟩ : PoolState).n)
    ∧ ((pg_create (pg_release ⟨2, [], [0, 1], true, false, 2⟩ 1)).1 = 1) :=
  ⟨by decide, by decide, by decide,
    (playground_lifo_release ⟨2, [], [0, 1], true, false, 2⟩ 1
      (by decide) (by decide) (by decide)).1⟩

/-- A Python slice `s[:n]` has at most `n` characters. -/
lemma pySlice_length_le (s : String) (n : Nat) : (pySlice s n).length ≤ n := by
  have h : (pySlice s n).length = (s.data.take n).length := rfl
  rw [h, List.length_take]
  exact Nat.min_le_left _ _

/-- The fallback loop returns the first non-404 reply among the fallbacks,
or — when every fallback replies 404 — the last reply, falling back to the
argument reply when there is no fallback at all. -/
lemma proxy_try_fallbacks_spec (responses : String → Nat × String) :
    ∀ (fps : List String) (pr : Nat × String),
      proxy_try_fallbacks responses fps pr =
        (match (fps.map responses).find? (fun r => r.1 ≠ 404) with
         | some r => r
         | none => (fps.map responses).getLast?.getD pr) := by
  intro fps
  induction fps with
  | nil => intro pr; rfl
  | cons fp rest ih =>
    intro pr
    show (if (responses fp).1 ≠ 404 then responses fp
          else proxy_try_fallbacks responses rest (responses fp)) = _
    by_cases h404 : (responses fp).1 ≠ 404
    · rw [if_pos h404]
      have hfind : ((fp :: rest).map responses).find? (fun r => r.1 ≠ 404) =
          some (responses fp) := by
        simp [List.find?_cons, h404]
      rw [hfind]
    · rw [if_neg h404, ih (responses fp)]
      simp only [List.map_cons]
      have hfind : (responses fp :: rest.map responses).find? (fun r => r.1 ≠ 404) =
          (rest.map responses).find? (fun r => r.1 ≠ 404) := by
        simp [List.find?_cons, h404]
      rw [hfind]
      cases hf : (rest.map responses).find? (fun r => r.1 ≠ 404) with
      | some r => rfl
      | none =>
        cases hl : rest.map responses with
        | nil => simp
        | cons y ys =>
          rw [List.getLast?_cons_cons]
          cases hys : (y :: ys).getLast? with
          | some z => rfl
          | none => simp at hys

/-- The final (status, body) pair `ProxyFacade.run` acts on equals the
spec-side formulation: the first non-404 among the tried replies, else the
last tried reply. -/
lemma proxy_final_eq (responses : String → Nat × String) (path : String)
    (fps : List String) :
    proxy_final responses path fps = proxy_spec_final responses path fps := by
  show (if (responses path).1 = 404 ∧ fps ≠ [] then
        proxy_try_fallbacks responses fps (responses path)
      else responses path) =
      (match ((responses path) ::
          (if (responses path).1 = 404 then fps.map responses else [])).find?
            (fun r => r.1 ≠ 404) with
       | some r => r
       | none => ((responses path) ::
          (if (responses path).1 = 404 then fps.map responses else [])).getLast?.getD
            (responses path))
  by_cases h404 : (responses path).1 = 404
  · rw [if_pos h404]
    cases fps with
    | nil =>
      rw [if_neg (by simp)]
      simp only [List.map_nil]
      have hfind : List.find? (fun (r : Nat × String) => r.1 ≠ 404) [responses path] = none := by
        simp [List.find?_cons, h404]
      rw [hfind]
      simp
    | cons f r =>
      rw [if_pos ⟨h404, by simp⟩]
      rw [proxy_try_fallbacks_spec]
      have hfind : (responses path :: (f :: r).map responses).find?
          (fun (x : Nat × String) => x.1 ≠ 404) =
          ((f :: r).map responses).find? (fun (x : Nat × String) => x.1 ≠ 404) := by
        simp [List.find?_cons, h404]
      rw [hfind]
      cases hf : ((f :: r).map responses).find? (fun x => x.1 ≠ 404) with
      | some x => rfl
      | none =>
        simp only [List.map_cons]
        rw [List.getLast?_cons_cons]
  · rw [if_neg (fun hc => h404 hc.1), if_neg h404]
    have hfind : List.find? (fun (r : Nat × String) => r.1 ≠ 404) [responses path] =
        some (responses path) := by
      simp [List.find?_cons, h404]
    rw [hfind]

/-- C6. The claim says the 2xx body "is JSON-decoded, falling back to the
raw body text when decoding fails". An empty body is neither: line 149
returns `None` without calling `json.loads` (on which `json.loads` would
raise, so the claimed fallback would produce the raw empty text instead).
Concretely, a 200 reply with an empty body yields `None`, not the raw body. -/
theorem proxy_empty_body_counterexample :
    (proxy_run (fun _ => (200, "")) (fun _ => (none : Option Unit)) "/run" ["/env/run"] =
      .ok .pyNone)
    ∧ ((Except.ok (ProxyResult.raw "") : Except ProxyError (ProxyResult Unit)) ≠
        Except.ok .pyNone) := by
  exact ⟨rfl, by decide⟩

/-- C6 (amended). `ProxyFacade.run` behaves as the spec-side model written
from the claim: fallback paths are tried in order on a primary 404 until a
non-404 reply or exhaustion; a final status outside [200, 300) raises
`ProxyError` carrying that status and the body truncated to at most 200
characters; a 2xx non-empty body is JSON-decoded with fallback to the raw
text, and an empty body yields `None`. -/
theorem proxy_dispatch_matches_spec (J : Type) (responses : String → Nat × String)
    (decode : String → Option J) (path : String) (fps : List String) :
    (proxy_run responses decode path fps = proxy_run_specModel responses decode path fps)
    ∧ (∀ e : ProxyError, proxy_run responses decode path fps = .error e →
        e.preview.length ≤ 200 ∧ (e.status < 200 ∨ 300 ≤ e.status) ∧
        e.status = (proxy_final responses path fps).1 ∧
        e.preview = pySlice (proxy_final responses path fps).2 200) := by
  have hfr := proxy_final_eq responses path fps
  constructor
  · simp only [proxy_run, proxy_run_specModel]
    rw [← hfr]
    by_cases hrange : (proxy_final responses path fps).1 < 200 ∨
        300 ≤ (proxy_final responses path fps).1
    · have hneg : ¬(200 ≤ (proxy_final responses path fps).1 ∧
          (proxy_final responses path fps).1 < 300) := by omega
      rw [if_pos hrange, if_neg hneg]
    · have hpos : 200 ≤ (proxy_final responses path fps).1 ∧
          (proxy_final responses path fps).1 < 300 := by omega
      rw [if_neg hrange, if_pos hpos]
      by_cases hb : (proxy_final responses path fps).2 = ""
      · simp [hb]
      · simp [hb]
  · intro e he
    simp only [proxy_run] at he
    by_cases hrange : (proxy_final responses path fps).1 < 200 ∨
        300 ≤ (proxy_final responses path fps).1
    · rw [if_pos hrange] at he
      cases he
      exact ⟨pySlice_length_le _ _, hrange, rfl, rfl⟩
    · rw [if_neg hrange] at he
      exact absurd he (by simp)

/-- Witness for C3 (amended): the concrete reaping iteration's write is a
direct (non-atomic) one. -/
theorem statestore_write_discipline_witness :
    (StoreWrite.direct [] ∈ (watchdog_tick (.valid [("s",
        ⟨"c1", "docker", "/w", some 0, some 0, some 10, "local-docker"⟩)])
        "s" 100 true true).stateWrites)
    ∧ StoreWrite.isAtomic (StoreWrite.direct []) = false :=
  ⟨by decide,
    statestore_write_discipline.2.2.2
      (.valid [("s", ⟨"c1", "docker", "/w", some 0, some 0, some 10, "local-docker"⟩)])
      "s" 100 true true (StoreWrite.direct []) (by decide)⟩

/-- Witness for C6 (amended): a primary 404 falling back to a 500 reply,
whose error carries the 500 status and the short body as preview. -/
theorem proxy_dispatch_matches_spec_witness :
    (proxy_run (fun p => if p = "/run" then (404, "nope") else (500, "boom"))
        (fun _ => (none : Option Unit)) "/run" ["/env/run"] =
      proxy_run_specModel (fun p => if p = "/run" then (404, "nope") else (500, "boom"))
        (fun _ => (none : Option Unit)) "/run" ["/env/run"])
    ∧ ((⟨500, pySlice "boom" 200⟩ : ProxyError).preview.length ≤ 200
       ∧ ((⟨500, pySlice "boom" 200⟩ : ProxyError).status < 200 ∨
          300 ≤ (⟨500, pySlice "boom" 200⟩ : ProxyError).status)
       ∧ (⟨500, pySlice "boom" 200⟩ : ProxyError).status =
          (proxy_final (fun p => if p = "/run" then (404, "nope") else (500, "boom"))
            "/run" ["/env/run"]).1
       ∧ (⟨500, pySlice "boom" 200⟩ : ProxyError).preview =
          pySlice (proxy_final (fun p => if p = "/run" then (404, "nope") else (500, "boom"))
            "/run" ["/env/run"]).2 200) :=
  ⟨(proxy_dispatch_matches_spec Unit
      (fun p => if p = "/run" then (404, "nope") else (500, "boom"))
      (fun _ => none) "/run" ["/env/run"]).1,
   (proxy_dispatch_matches_spec Unit
      (fun p => if p = "/run" then (404, "nope") else (500, "boom"))
      (fun _ => none) "/run" ["/env/run"]).2
      ⟨500, pySlice "boom" 200⟩ (by decide)⟩

end Quixand
